import Mathlib

/-!
# Verification of the dblite query-criteria translator and its Storage call sites

The repository stores python dictionaries in a sqlite database
(`src/dblite/__init__.py`).  The `Storage` class delegates `WHERE`-clause
construction to `WhereBuilder().parse(criteria)` from the module `dblite.sql`,
whose source is not part of the tree; the translator (criteria model,
operator table, validation and translation) is therefore modelled from the
specification, while everything in the `Storage` namespace below is a direct
shallow embedding of `src/dblite/__init__.py`.
-/

set_option autoImplicit false

namespace dblite

/-- Modelled from the spec (§3): a literal operand value — string, integer,
boolean or null.  Operand values pass through the translator untouched. -/
inductive Value where
  | str : String → Value
  | int : Int → Value
  | bool : Bool → Value
  | null : Value
deriving DecidableEq, Repr

/-- Modelled from the spec (§4.1): the operand attached to an operator key in
an operator descriptor — a scalar, an ordered sequence, or a boolean flag
(for the is-null variant). -/
inductive Operand where
  | scalar : Value → Operand
  | seq : List Value → Operand
  | flag : Bool → Operand
deriving DecidableEq, Repr

/-- Modelled from the spec (§4.1): what a filter mapping associates to a field
name — a bare scalar value (implying equality) or an operator descriptor
with exactly one operator key and its operand. -/
inductive FieldSpec where
  | bare : Value → FieldSpec
  | op : String → Operand → FieldSpec
deriving DecidableEq, Repr

/-- A record instance (the item abstraction): an identity value plus the
remaining fields.  Only the identity field matters when a record is used as
criteria (src/dblite/__init__.py lines 198-199). -/
structure Record where
  idValue : Value
  otherFields : List (String × Value)
deriving DecidableEq, Repr

/-- Modelled from the spec (§4.1, §9): the closed set of accepted filter
input shapes — absent, a field mapping, or a record instance. -/
inductive FilterInput where
  | none : FilterInput
  | map : List (String × FieldSpec) → FilterInput
  | record : Record → FilterInput
deriving DecidableEq, Repr

/-- Modelled from the spec (§7): the construction-time error. -/
inductive InvalidCriteria where
  | badField : String → InvalidCriteria
  | unknownOperator : String → InvalidCriteria
  | badOperand : String → InvalidCriteria
deriving DecidableEq, Repr

/-- Modelled from the spec (§4.2, §9): one filter condition, as a closed
tagged variant — one constructor per row of the operator table. -/
inductive Criterion where
  | eq : String → Value → Criterion
  | ne : String → Value → Criterion
  | gt : String → Value → Criterion
  | ge : String → Value → Criterion
  | lt : String → Value → Criterion
  | le : String → Value → Criterion
  | inSet : String → List Value → Criterion
  | notInSet : String → List Value → Criterion
  | isNull : String → Criterion
  | isNotNull : String → Criterion
deriving DecidableEq, Repr

/-- Modelled from the spec (§3): a Criteria is an ordered sequence of
Criterion, combined by logical AND. -/
abbrev Criteria := List Criterion

/-- The field name of a criterion. -/
def Criterion.field : Criterion → String
  | .eq f _ => f
  | .ne f _ => f
  | .gt f _ => f
  | .ge f _ => f
  | .lt f _ => f
  | .le f _ => f
  | .inSet f _ => f
  | .notInSet f _ => f
  | .isNull f => f
  | .isNotNull f => f

/-- Modelled from the spec (§3): a field name must be a non-empty
identifier-safe string (letters, digits, underscore — no SQL
metacharacters). -/
def isValidField (s : String) : Bool :=
  !s.data.isEmpty && s.data.all fun c => c.isAlphanum || c == '_'

/-- A scalar comparison operator requires a scalar operand. -/
def scalarOp (mk : String → Value → Criterion) (field key : String) :
    Operand → Except InvalidCriteria Criterion
  | .scalar v => .ok (mk field v)
  | _ => .error (.badOperand key)

/-- A membership operator requires a non-empty ordered sequence operand. -/
def seqOp (mk : String → List Value → Criterion) (field key : String) :
    Operand → Except InvalidCriteria Criterion
  | .seq vs => if vs.isEmpty then .error (.badOperand key) else .ok (mk field vs)
  | _ => .error (.badOperand key)

/-- Modelled from the spec (§4.2): dispatch on the closed operator-key table.
An unrecognized key fails with `unknownOperator`; a recognized key with an
operand of the wrong shape fails with `badOperand`. -/
def buildOp (field key : String) (o : Operand) : Except InvalidCriteria Criterion :=
  if key = "equals" then scalarOp .eq field key o
  else if key = "not-equals" then scalarOp .ne field key o
  else if key = "greater-than" then scalarOp .gt field key o
  else if key = "greater-or-equal" then scalarOp .ge field key o
  else if key = "less-than" then scalarOp .lt field key o
  else if key = "less-or-equal" then scalarOp .le field key o
  else if key = "in-set" then seqOp .inSet field key o
  else if key = "not-in-set" then seqOp .notInSet field key o
  else if key = "is-null" then
    match o with
    | .flag b => .ok (if b then .isNull field else .isNotNull field)
    | _ => .error (.badOperand key)
  else .error (.unknownOperator key)

/-- Modelled from the spec (§4.1, §4.2 operator table): validate one entry of
the filter mapping and build its Criterion.  Fails with `InvalidCriteria`
on an empty or SQL-unsafe field name, an unrecognized operator key, or an
operand whose shape does not match its operator (including an empty
sequence for a membership operator). -/
def buildCriterion (field : String) (fs : FieldSpec) : Except InvalidCriteria Criterion :=
  if !isValidField field then .error (.badField field)
  else
    match fs with
    | .bare v => .ok (.eq field v)
    | .op key operand => buildOp field key operand

/-- Build the Criterion sequence from the entries of a filter mapping, in
insertion order, propagating the first validation error. -/
def buildList : List (String × FieldSpec) → Except InvalidCriteria Criteria
  | [] => .ok []
  | (f, s) :: rest => do
    let c ← buildCriterion f s
    let cs ← buildList rest
    return c :: cs

/-- Modelled from the spec (§4.1, §6): normalize caller filter input into a
Criteria.  Absent input is the empty Criteria; a mapping is validated entry
by entry in insertion order; a record instance is normalized to a single
equality criterion on its identity field only (as the source does in
`Storage.delete`, lines 198-199). -/
def buildCriteria : FilterInput → Except InvalidCriteria Criteria
  | .none => .ok []
  | .map kvs => buildList kvs
  | .record r => buildList [("_id", .bare r.idValue)]

/-- Modelled from the spec (§3): the translation result — a SQL fragment with
positional placeholders and the ordered bound parameter values. -/
structure TranslationResult where
  fragment : String
  parameters : List Value
deriving DecidableEq, Repr

/-- Join a list of strings with a separator (python str.join). -/
def joinFrags (sep : String) : List String → String
  | [] => ""
  | [x] => x
  | x :: xs => x ++ sep ++ joinFrags sep xs

/-- Modelled from the spec (§4.2 operator table): the SQL form of one
criterion, with its bound parameters in placeholder order. -/
def criterionSQL : Criterion → String × List Value
  | .eq f v => (f ++ " = ?", [v])
  | .ne f v => (f ++ " <> ?", [v])
  | .gt f v => (f ++ " > ?", [v])
  | .ge f v => (f ++ " >= ?", [v])
  | .lt f v => (f ++ " < ?", [v])
  | .le f v => (f ++ " <= ?", [v])
  | .inSet f vs => (f ++ " IN (" ++ joinFrags ", " (vs.map fun _ => "?") ++ ")", vs)
  | .notInSet f vs => (f ++ " NOT IN (" ++ joinFrags ", " (vs.map fun _ => "?") ++ ")", vs)
  | .isNull f => (f ++ " IS NULL", [])
  | .isNotNull f => (f ++ " IS NOT NULL", [])

/-- Modelled from the spec (§4.2): translate a Criteria by emitting each
criterion's SQL form in order, joining the fragments with " AND " and
concatenating the parameter lists in the same order. -/
def translate (c : Criteria) : TranslationResult :=
  { fragment := joinFrags " AND " (c.map fun cr => (criterionSQL cr).1)
    parameters := (c.map fun cr => (criterionSQL cr).2).flatten }

/-- Build then translate: the whole pipeline from caller filter input. -/
def translateInput (i : FilterInput) : Except InvalidCriteria TranslationResult :=
  (buildCriteria i).map translate

/-- Count the positional placeholders in a SQL fragment. -/
def countQ (s : String) : Nat :=
  s.data.countP fun c => c == '?'

/-- Modelled from the spec (§8 "no restriction"): database-side evaluation of
a translated filter against the stored rows — a row is kept when every
criterion holds; an empty Criteria keeps every row.  Comparison semantics
beyond equality/membership are database concerns kept abstract via `holds`. -/
def evalSelect {Row : Type} (holds : Criterion → Row → Bool) (rows : List Row)
    (c : Criteria) : List Row :=
  rows.filter fun r => c.all fun cr => holds cr r

/-- From src/dblite/__init__.py lines 71-81 (`Storage._dict_factory`): map one
fetched row to a dict, exposing the `rowid` column under the key `_id` and
every other column under its own name, pairing columns with row values by
position. -/
def Storage.dict_factory : List String → List Value → List (String × Value)
  | [], _ => []
  | _, [] => []
  | col :: cols, v :: vs =>
    (if col = "rowid" then "_id" else col, v) :: Storage.dict_factory cols vs

/-- From src/dblite/__init__.py lines 122-134 (`Storage.get`): build the
SELECT statement from the table name and the WHERE string returned by
`WhereBuilder().parse(criteria)`, and return the pair passed to
`cursor.execute` — the SQL text and the bound parameter sequence.  The
source calls `self._cursor.execute(SQL)` with no parameter argument, so the
bound parameter sequence is empty. -/
def Storage.getExec (table WHERE : String) : String × List Value :=
  let SQL := "SELECT rowid,* FROM " ++ table
  let SQL := if WHERE ≠ "" then joinFrags " " [SQL, "WHERE", WHERE, ";"] else SQL ++ ";"
  (SQL, [])

/-- From src/dblite/__init__.py lines 193-211 (`Storage.delete`): build the
DELETE statement, raising `RuntimeError` (modelled as `.error`) when the
WHERE string is empty and `_all` is false, before any statement is
executed.  On success returns the pair passed to `cursor.execute`; the
source calls `self._cursor.execute(SQL)` with no parameter argument. -/
def Storage.deleteExec (table WHERE : String) (all : Bool) :
    Except String (String × List Value) :=
  let SQL := "DELETE FROM " ++ table
  if WHERE ≠ "" then
    let SQL := joinFrags " " [SQL, "WHERE", WHERE, ";"]
    .ok (if all then SQL ++ ";" else SQL, [])
  else if !all then
    .error "Criteria is not defined"
  else
    .ok (SQL ++ ";", [])

/-- From src/dblite/__init__.py lines 198-199 (`Storage.delete`): a record
instance supplied as criteria is replaced by the mapping
`{'_id': criteria['_id']}` before the WHERE clause is built. -/
def Storage.normalizeCriteria : FilterInput → FilterInput
  | .record r => .map [("_id", .bare r.idValue)]
  | i => i

/-- From src/dblite/__init__.py lines 30-39, 65-67: the autocommit
constructor argument — a boolean or an integer. -/
inductive Autocommit where
  | bool : Bool → Autocommit
  | int : Int → Autocommit
deriving DecidableEq, Repr

/-- From src/dblite/__init__.py lines 138-152 (`Storage._do_autocommit`):
increment the commit counter; with a true boolean autocommit, commit and
reset the counter; with a positive integer autocommit `n`, commit and
reset the counter when the incremented counter is divisible by `n`.
Returns the new counter and whether `commit()` was invoked. -/
def Storage.do_autocommit (ac : Autocommit) (counter : Nat) : Nat × Bool :=
  let counter := counter + 1
  match ac with
  | .bool b => if b then (0, true) else (counter, false)
  | .int n =>
    if 0 < n then
      if counter % n.toNat = 0 then (0, true) else (counter, false)
    else (counter, false)

/-- Run `k` successful `put()` calls from a commit counter and a count of
`commit()` invocations, threading `Storage.do_autocommit` as
`Storage._put_one` does (src/dblite/__init__.py line 183). -/
def Storage.runPuts (ac : Autocommit) : Nat → Nat × Nat
  | 0 => (0, 0)
  | k + 1 =>
    let (counter, commits) := Storage.runPuts ac k
    let (counter, didCommit) := Storage.do_autocommit ac counter
    (counter, commits + if didCommit then 1 else 0)

/-! ## Helper lemmas -/

/-- A criterion is well formed when its field name passed validation. -/
def Criterion.wf (cr : Criterion) : Bool :=
  isValidField cr.field

theorem countQ_append (a b : String) : countQ (a ++ b) = countQ a + countQ b := by
  simp [countQ, String.data_append, List.countP_append]

theorem countQ_of_validField {f : String} (h : isValidField f = true) : countQ f = 0 := by
  simp only [isValidField, Bool.and_eq_true, List.all_eq_true] at h
  refine (List.countP_eq_zero).mpr fun c hc hq => ?_
  have hcq : c = '?' := by simpa using hq
  subst hcq
  have := h.2 '?' hc
  simp at this

theorem sum_map_one {α : Type} (l : List α) : (l.map fun _ => (1 : Nat)).sum = l.length := by
  induction l <;> simp_all [Nat.add_comm]

theorem countQ_joinFrags (sep : String) (hsep : countQ sep = 0) :
    ∀ l : List String, countQ (joinFrags sep l) = (l.map countQ).sum
  | [] => by simp [joinFrags, countQ]
  | [x] => by simp [joinFrags]
  | x :: y :: xs => by
    have ih := countQ_joinFrags sep hsep (y :: xs)
    simp only [joinFrags] at ih ⊢
    simp [countQ_append, hsep, ih]

theorem countQ_criterionSQL {cr : Criterion} (h : cr.wf = true) :
    countQ (criterionSQL cr).1 = (criterionSQL cr).2.length := by
  have hf : countQ cr.field = 0 := countQ_of_validField h
  cases cr <;>
    simp_all [Criterion.wf, Criterion.field, criterionSQL, countQ_append,
      countQ_joinFrags ", " (by decide), List.map_map, Function.comp,
      sum_map_one, show countQ " = ?" = 1 from by decide,
      show countQ " <> ?" = 1 from by decide,
      show countQ " > ?" = 1 from by decide,
      show countQ " >= ?" = 1 from by decide,
      show countQ " < ?" = 1 from by decide,
      show countQ " <= ?" = 1 from by decide,
      show countQ " IN (" = 0 from by decide,
      show countQ " NOT IN (" = 0 from by decide,
      show countQ ")" = 0 from by decide,
      show countQ "?" = 1 from by decide,
      show countQ " IS NULL" = 0 from by decide,
      show countQ " IS NOT NULL" = 0 from by decide]

theorem scalarOp_ok_field {mk : String → Value → Criterion}
    (hmk : ∀ g v, (mk g v).field = g) {field key : String} {o : Operand}
    {cr : Criterion} (h : scalarOp mk field key o = .ok cr) :
    cr.field = field := by
  cases o with
  | scalar v =>
    simp only [scalarOp] at h
    injection h with h
    subst h
    exact hmk field v
  | seq vs => cases h
  | flag b => cases h

theorem seqOp_ok_field {mk : String → List Value → Criterion}
    (hmk : ∀ g vs, (mk g vs).field = g) {field key : String} {o : Operand}
    {cr : Criterion} (h : seqOp mk field key o = .ok cr) :
    cr.field = field := by
  cases o with
  | scalar v => cases h
  | seq vs =>
    simp only [seqOp] at h
    split at h
    · cases h
    · injection h with h
      subst h
      exact hmk field vs
  | flag b => cases h

theorem buildOp_ok_field {field key : String} {o : Operand} {cr : Criterion}
    (h : buildOp field key o = .ok cr) : cr.field = field := by
  unfold buildOp at h
  split at h
  · refine scalarOp_ok_field ?_ h
    intro g v
    rfl
  split at h
  · refine scalarOp_ok_field ?_ h
    intro g v
    rfl
  split at h
  · refine scalarOp_ok_field ?_ h
    intro g v
    rfl
  split at h
  · refine scalarOp_ok_field ?_ h
    intro g v
    rfl
  split at h
  · refine scalarOp_ok_field ?_ h
    intro g v
    rfl
  split at h
  · refine scalarOp_ok_field ?_ h
    intro g v
    rfl
  split at h
  · refine seqOp_ok_field ?_ h
    intro g vs
    rfl
  split at h
  · refine seqOp_ok_field ?_ h
    intro g vs
    rfl
  split at h
  · cases o with
    | scalar v => cases h
    | seq vs => cases h
    | flag b =>
      injection h with h
      subst h
      cases b <;> rfl
  · cases h

theorem buildCriterion_ok_wf {f : String} {fs : FieldSpec} {cr : Criterion}
    (h : buildCriterion f fs = .ok cr) : cr.wf = true := by
  unfold buildCriterion at h
  split at h
  · cases h
  next hv =>
    have hv' : isValidField f = true := by simpa using hv
    cases fs with
    | bare v =>
      simp only at h
      injection h with h
      subst h
      simpa [Criterion.wf, Criterion.field] using hv'
    | op key operand =>
      simp only at h
      have hfield : cr.field = f := buildOp_ok_field h
      simpa [Criterion.wf, hfield] using hv'

theorem buildList_ok_wf :
    ∀ {kvs : List (String × FieldSpec)} {cs : Criteria},
      buildList kvs = .ok cs → ∀ cr ∈ cs, cr.wf = true := by
  intro kvs
  induction kvs with
  | nil =>
    intro cs h
    simp only [buildList] at h
    injection h with h
    subst h
    simp
  | cons p rest ih =>
    intro cs h
    obtain ⟨f, s⟩ := p
    simp only [buildList] at h
    cases hc : buildCriterion f s with
    | error e => rw [hc] at h; cases h
    | ok c =>
      rw [hc] at h
      cases hr : buildList rest with
      | error e => rw [hr] at h; cases h
      | ok cs' =>
        rw [hr] at h
        injection h with h
        subst h
        intro cr hcr
        rcases List.mem_cons.mp hcr with hcr | hcr
        · subst hcr; exact buildCriterion_ok_wf hc
        · exact ih hr cr hcr

theorem buildCriteria_ok_wf {i : FilterInput} {cs : Criteria}
    (h : buildCriteria i = .ok cs) : ∀ cr ∈ cs, cr.wf = true := by
  cases i with
  | none =>
    simp only [buildCriteria] at h
    injection h with h
    subst h
    simp
  | map kvs => exact buildList_ok_wf h
  | record r => exact buildList_ok_wf h

theorem countQ_translate {cs : Criteria} (h : ∀ cr ∈ cs, cr.wf = true) :
    countQ (translate cs).fragment = (translate cs).parameters.length := by
  simp only [translate]
  rw [countQ_joinFrags " AND " (by decide), List.length_flatten,
    List.map_map, List.map_map]
  exact congrArg List.sum
    (List.map_congr_left fun cr hcr => countQ_criterionSQL (h cr hcr))

theorem joinFrags_cons (sep x : String) {xs : List String} (h : xs ≠ []) :
    joinFrags sep (x :: xs) = x ++ sep ++ joinFrags sep xs := by
  cases xs with
  | nil => exact absurd rfl h
  | cons y ys => rfl

theorem joinFrags_append (sep : String) :
    ∀ (xs : List String), xs ≠ [] → ∀ (ys : List String), ys ≠ [] →
      joinFrags sep (xs ++ ys) = joinFrags sep xs ++ sep ++ joinFrags sep ys
  | [], hx => absurd rfl hx
  | [x], _ => fun ys hy => by
      rw [List.singleton_append, joinFrags_cons sep x hy]
      rfl
  | x :: x2 :: xs, _ => fun ys hy => by
      have ih := joinFrags_append sep (x2 :: xs) (by simp) ys hy
      rw [List.cons_append, joinFrags_cons sep x (by simp),
        joinFrags_cons sep x (by simp), ih]
      simp [String.append_assoc]

theorem buildList_error_of_mem :
    ∀ {kvs : List (String × FieldSpec)} {f : String} {s : FieldSpec},
      (f, s) ∈ kvs → (∃ e, buildCriterion f s = .error e) →
      ∃ e, buildList kvs = .error e := by
  intro kvs
  induction kvs with
  | nil => intro f s hmem; cases hmem
  | cons p rest ih =>
    intro f s hmem hbad
    obtain ⟨g, t⟩ := p
    rcases List.mem_cons.mp hmem with hhead | htail
    · obtain ⟨hf, hs⟩ := Prod.mk.injEq .. ▸ hhead
      obtain ⟨e, he⟩ := hbad
      refine ⟨e, ?_⟩
      simp only [buildList]
      rw [show buildCriterion g t = .error e from hf ▸ hs ▸ he]
      rfl
    · cases hc : buildCriterion g t with
      | error e => exact ⟨e, by simp only [buildList]; rw [hc]; rfl⟩
      | ok c =>
        obtain ⟨e, he⟩ := ih htail hbad
        refine ⟨e, ?_⟩
        simp only [buildList]
        rw [hc, he]
        rfl

/-! ## Claim theorems -/

/-- C2: for every Criteria produced by `buildCriteria`, the number of bound
parameters produced by `translate` equals the number of `?` placeholders in
the produced fragment — the translator never yields a placeholder/parameter
count mismatch. -/
theorem translate_placeholder_param_count (input : FilterInput) (c : Criteria)
    (h : buildCriteria input = .ok c) :
    countQ (translate c).fragment = (translate c).parameters.length :=
  countQ_translate (buildCriteria_ok_wf h)

/-- Witness for C2 at the concrete input
`{"name": "alice", "age": {"greater-or-equal": 21}}`. -/
theorem translate_placeholder_param_count_witness :
    countQ (translate [Criterion.eq "name" (Value.str "alice"),
        Criterion.ge "age" (Value.int 21)]).fragment
      = (translate [Criterion.eq "name" (Value.str "alice"),
        Criterion.ge "age" (Value.int 21)]).parameters.length :=
  translate_placeholder_param_count
    (.map [("name", .bare (.str "alice")),
           ("age", .op "greater-or-equal" (.scalar (.int 21)))])
    [Criterion.eq "name" (Value.str "alice"), Criterion.ge "age" (Value.int 21)]
    rfl

/-- C3: absent or empty-mapping filter input translates to an empty fragment
with an empty parameter sequence; `Storage.get` then executes the plain
statement `SELECT rowid,* FROM <table>;` with no WHERE keyword, and
evaluating an empty Criteria against the stored rows keeps every row. -/
theorem empty_criteria_matches_everything :
    buildCriteria .none = .ok ([] : Criteria)
    ∧ buildCriteria (.map []) = .ok ([] : Criteria)
    ∧ translate [] = ⟨"", []⟩
    ∧ (∀ table : String, Storage.getExec table (translate []).fragment
        = ("SELECT rowid,* FROM " ++ table ++ ";", []))
    ∧ (∀ (Row : Type) (holds : Criterion → Row → Bool) (rows : List Row),
        evalSelect holds rows [] = rows) := by
  refine ⟨rfl, rfl, rfl, fun table => ?_, fun Row holds rows => ?_⟩
  · simp [Storage.getExec, translate, joinFrags]
  · simp [evalSelect]

/-- C4: a record instance supplied as filter criteria is normalized to a
single equality criterion on the identity field `_id` only — the result is
the one obtained from the mapping `{"_id": r["_id"]}` and is independent of
the record's other fields. -/
theorem record_criteria_identity_only (r r2 : Record)
    (h : r.idValue = r2.idValue) :
    Storage.normalizeCriteria (.record r) = .map [("_id", .bare r.idValue)]
    ∧ buildCriteria (.record r) = buildCriteria (.map [("_id", .bare r.idValue)])
    ∧ buildCriteria (.record r) = .ok [Criterion.eq "_id" r.idValue]
    ∧ buildCriteria (.record r) = buildCriteria (.record r2) := by
  refine ⟨rfl, rfl, rfl, ?_⟩
  show buildList [("_id", .bare r.idValue)] = buildList [("_id", .bare r2.idValue)]
  rw [h]

/-- Witness for C4 at a record with identity 7 and unrelated other fields. -/
theorem record_criteria_identity_only_witness :
    Storage.normalizeCriteria (.record ⟨.int 7, [("name", .str "bob")]⟩)
        = .map [("_id", .bare (.int 7))]
    ∧ buildCriteria (.record ⟨.int 7, [("name", .str "bob")]⟩)
        = buildCriteria (.map [("_id", .bare (.int 7))])
    ∧ buildCriteria (.record ⟨.int 7, [("name", .str "bob")]⟩)
        = .ok [Criterion.eq "_id" (.int 7)]
    ∧ buildCriteria (.record ⟨.int 7, [("name", .str "bob")]⟩)
        = buildCriteria (.record ⟨.int 7, [("age", .int 33)]⟩) :=
  record_criteria_identity_only ⟨.int 7, [("name", .str "bob")]⟩
    ⟨.int 7, [("age", .int 33)]⟩ rfl

/-- C5: per-criterion fragments are joined with " AND " in insertion order and
the parameters are concatenated in the same left-to-right order; on the
spec's example `{"name": "alice", "age": {"greater-or-equal": 21}}` the
translator yields `"name = ? AND age >= ?"` with parameters
`["alice", 21]`. -/
theorem translate_and_join (cs ds : Criteria) (h1 : cs ≠ []) (h2 : ds ≠ []) :
    (translate (cs ++ ds)).fragment
        = (translate cs).fragment ++ " AND " ++ (translate ds).fragment
    ∧ (translate (cs ++ ds)).parameters
        = (translate cs).parameters ++ (translate ds).parameters
    ∧ buildCriteria (.map [("name", .bare (.str "alice")),
          ("age", .op "greater-or-equal" (.scalar (.int 21)))])
        = .ok [Criterion.eq "name" (.str "alice"), Criterion.ge "age" (.int 21)]
    ∧ translate [Criterion.eq "name" (.str "alice"), Criterion.ge "age" (.int 21)]
        = ⟨"name = ? AND age >= ?", [.str "alice", .int 21]⟩ := by
  refine ⟨?_, ?_, rfl, rfl⟩
  · simp only [translate, List.map_append]
    exact joinFrags_append " AND " (cs.map fun cr => (criterionSQL cr).1)
      (by simpa using h1) (ds.map fun cr => (criterionSQL cr).1)
      (by simpa using h2)
  · simp [translate]

/-- Witness for C5 at two singleton criteria lists. -/
theorem translate_and_join_witness :
    (translate ([Criterion.eq "name" (.str "alice")]
          ++ [Criterion.ge "age" (.int 21)])).fragment
        = (translate [Criterion.eq "name" (.str "alice")]).fragment ++ " AND "
          ++ (translate [Criterion.ge "age" (.int 21)]).fragment
    ∧ (translate ([Criterion.eq "name" (.str "alice")]
          ++ [Criterion.ge "age" (.int 21)])).parameters
        = (translate [Criterion.eq "name" (.str "alice")]).parameters
          ++ (translate [Criterion.ge "age" (.int 21)]).parameters
    ∧ buildCriteria (.map [("name", .bare (.str "alice")),
          ("age", .op "greater-or-equal" (.scalar (.int 21)))])
        = .ok [Criterion.eq "name" (.str "alice"), Criterion.ge "age" (.int 21)]
    ∧ translate [Criterion.eq "name" (.str "alice"), Criterion.ge "age" (.int 21)]
        = ⟨"name = ? AND age >= ?", [.str "alice", .int 21]⟩ :=
  translate_and_join [Criterion.eq "name" (.str "alice")]
    [Criterion.ge "age" (.int 21)] (by simp) (by simp)

/-- C6: `buildCriteria` fails with `InvalidCriteria` — never a silently empty
or trivial filter — whenever any entry of the mapping has an empty or
SQL-unsafe field name, an unrecognized operator key, or an operand of the
wrong shape for its operator, including the empty membership set
`{"id": {"in-set": []}}`. -/
theorem buildCriteria_invalid_rejected
    (kvs : List (String × FieldSpec)) (f : String) (s : FieldSpec)
    (hmem : (f, s) ∈ kvs) (hbad : ∃ e, buildCriterion f s = .error e) :
    (∃ e, buildCriteria (.map kvs) = .error e)
    ∧ buildCriteria (.map [("", .bare (.str "x"))])
        = .error (.badField "")
    ∧ buildCriteria (.map [("na me", .bare (.str "x"))])
        = .error (.badField "na me")
    ∧ buildCriteria (.map [("age", .op "bogus-op" (.scalar (.int 1)))])
        = .error (.unknownOperator "bogus-op")
    ∧ buildCriteria (.map [("id", .op "in-set" (.seq []))])
        = .error (.badOperand "in-set")
    ∧ buildCriteria (.map [("age", .op "greater-than" (.seq [.int 1]))])
        = .error (.badOperand "greater-than") :=
  ⟨buildList_error_of_mem hmem hbad, rfl, rfl, rfl, rfl, rfl⟩

/-- Witness for C6 at the empty membership-set input. -/
theorem buildCriteria_invalid_rejected_witness :
    (∃ e, buildCriteria (.map [("id", .op "in-set" (.seq []))]) = .error e)
    ∧ buildCriteria (.map [("", .bare (.str "x"))])
        = .error (.badField "")
    ∧ buildCriteria (.map [("na me", .bare (.str "x"))])
        = .error (.badField "na me")
    ∧ buildCriteria (.map [("age", .op "bogus-op" (.scalar (.int 1)))])
        = .error (.unknownOperator "bogus-op")
    ∧ buildCriteria (.map [("id", .op "in-set" (.seq []))])
        = .error (.badOperand "in-set")
    ∧ buildCriteria (.map [("age", .op "greater-than" (.seq [.int 1]))])
        = .error (.badOperand "greater-than") :=
  buildCriteria_invalid_rejected [("id", .op "in-set" (.seq []))]
    "id" (.op "in-set" (.seq [])) (List.mem_singleton.mpr rfl)
    ⟨.badOperand "in-set", rfl⟩

/-- C7: translation is deterministic and stateless — it is a pure function of
the Criteria, so repeated invocation yields identical results and the
result of translating `c` after any earlier sequence of translator
invocations is the same, whatever that earlier sequence was. -/
theorem translate_pure_deterministic (pre1 pre2 : List Criteria) (c : Criteria) :
    ((pre1 ++ [c]).map translate).getLast?
        = ((pre2 ++ [c]).map translate).getLast?
    ∧ translate c = translate c := by
  refine ⟨?_, rfl⟩
  simp [List.map_append]

theorem do_autocommit_int (n : Nat) (hn : 0 < n) (counter : Nat) :
    Storage.do_autocommit (.int (n : Int)) counter
      = if (counter + 1) % n = 0 then (0, true) else (counter + 1, false) := by
  simp [Storage.do_autocommit, hn, Int.natCast_pos, Int.toNat_natCast]

theorem runPuts_int (n : Nat) (hn : 0 < n) :
    ∀ k, Storage.runPuts (.int (n : Int)) k = (k % n, k / n)
  | 0 => by simp [Storage.runPuts]
  | k + 1 => by
    have ih := runPuts_int n hn k
    have hmod : (k % n + 1) % n = (k + 1) % n := by
      conv_rhs => rw [← Nat.mod_add_div k n]
      rw [Nat.add_right_comm, Nat.add_mul_mod_self_left]
    simp only [Storage.runPuts, ih, do_autocommit_int n hn]
    rw [hmod]
    by_cases hz : (k + 1) % n = 0
    · rw [if_pos hz]
      have hdvd : n ∣ (k + 1) := Nat.dvd_of_mod_eq_zero hz
      rw [Nat.succ_div, if_pos hdvd]
      simp [hz]
    · rw [if_neg hz]
      have hne : ¬ n ∣ (k + 1) := fun hd =>
        hz (Nat.dvd_iff_mod_eq_zero.mp hd)
      have hlt : k % n + 1 < n := by
        refine lt_of_le_of_ne (Nat.succ_le_of_lt (Nat.mod_lt k hn)) fun he => ?_
        exact hz (by rw [← hmod, he, Nat.mod_self])
      rw [Nat.succ_div, if_neg hne, ← hmod, Nat.mod_eq_of_lt hlt]
      simp

/-- C8: autocommit batching.  With `autocommit=True` every successful `put()`
triggers `commit()` and resets the counter; with `autocommit=False` no
automatic `commit()` ever happens; with an integer `autocommit = n > 0`,
`commit()` fires exactly on every n-th `put()` since the last automatic
commit, resetting the counter to zero — so after `k` puts the counter is
`k % n` and `commit()` has fired `k / n` times. -/
theorem autocommit_policy (n k : Nat) (hn : 0 < n) :
    Storage.runPuts (.bool true) k = (0, k)
    ∧ Storage.runPuts (.bool false) k = (k, 0)
    ∧ Storage.runPuts (.int (n : Int)) k = (k % n, k / n)
    ∧ (∀ counter, Storage.do_autocommit (.bool true) counter = (0, true))
    ∧ (∀ counter, Storage.do_autocommit (.bool false) counter
        = (counter + 1, false))
    ∧ (∀ counter, Storage.do_autocommit (.int (n : Int)) counter
        = if (counter + 1) % n = 0 then (0, true) else (counter + 1, false)) := by
  refine ⟨?_, ?_, runPuts_int n hn k, fun _ => rfl, fun _ => rfl,
    do_autocommit_int n hn⟩
  · induction k with
    | zero => rfl
    | succ k ih => simp [Storage.runPuts, ih, Storage.do_autocommit]
  · induction k with
    | zero => rfl
    | succ k ih => simp [Storage.runPuts, ih, Storage.do_autocommit]

/-- Witness for C8 at n = 2, k = 5. -/
theorem autocommit_policy_witness :
    Storage.runPuts (.bool true) 5 = (0, 5)
    ∧ Storage.runPuts (.bool false) 5 = (5, 0)
    ∧ Storage.runPuts (.int ((2 : Nat) : Int)) 5 = (5 % 2, 5 / 2)
    ∧ (∀ counter, Storage.do_autocommit (.bool true) counter = (0, true))
    ∧ (∀ counter, Storage.do_autocommit (.bool false) counter
        = (counter + 1, false))
    ∧ (∀ counter, Storage.do_autocommit (.int ((2 : Nat) : Int)) counter
        = if (counter + 1) % 2 = 0 then (0, true) else (counter + 1, false)) :=
  autocommit_policy 2 5 (by decide)

/-- C9: the row factory maps each result column to a dict entry pairing the
column name with the row value at the same position, except that the
`rowid` column is exposed under the key `_id`; this renaming is a
post-fetch mapping in Storage, independent of the translator. -/
theorem dict_factory_rowid_to_id (cols : List String) (row : List Value) :
    Storage.dict_factory cols row
        = (cols.map fun c => if c = "rowid" then "_id" else c).zip row
    ∧ Storage.dict_factory ["rowid", "name", "age"] [.int 5, .str "a", .int 3]
        = [("_id", .int 5), ("name", .str "a"), ("age", .int 3)] := by
  refine ⟨?_, rfl⟩
  induction cols generalizing row with
  | nil => simp [Storage.dict_factory]
  | cons c cs ih =>
    cases row with
    | nil => simp [Storage.dict_factory]
    | cons v vs => simp [Storage.dict_factory, ih]

/-- C10: `Storage.delete` with an empty WHERE (absent or empty criteria) and
`_all = False` raises `RuntimeError` before any statement is executed;
with `_all = True` it executes the unconditional `DELETE FROM <table>;`. -/
theorem delete_requires_criteria_or_all (table : String) :
    Storage.deleteExec table (translate []).fragment false
        = .error "Criteria is not defined"
    ∧ Storage.deleteExec table (translate []).fragment true
        = .ok ("DELETE FROM " ++ table ++ ";", [])
    ∧ buildCriteria .none = .ok ([] : Criteria)
    ∧ translate [] = ⟨"", []⟩ := by
  refine ⟨?_, ?_, rfl, rfl⟩ <;> simp [Storage.deleteExec, translate, joinFrags]

/-- C1 as stated is false on the code: for the criteria
`{"age": {"greater-than": 18}}` the translation carries the bound parameter
18, but `Storage.get` and `Storage.delete` invoke `cursor.execute(SQL)`
with the WHERE text spliced into the statement and an empty parameter
sequence — the translation's parameters are not bound at execution. -/
theorem execute_unbound_counterexample :
    translateInput (.map [("age", .op "greater-than" (.scalar (.int 18)))])
        = .ok ⟨"age > ?", [.int 18]⟩
    ∧ (Storage.getExec "items" "age > ?").1
        = "SELECT rowid,* FROM items WHERE age > ? ;"
    ∧ (Storage.getExec "items" "age > ?").2 = []
    ∧ (Storage.getExec "items" "age > ?").2 ≠ [Value.int 18]
    ∧ Storage.deleteExec "items" "age > ?" false
        = .ok ("DELETE FROM items WHERE age > ? ;", []) := by
  refine ⟨rfl, rfl, rfl, ?_, rfl⟩
  simp [Storage.getExec]

/-- C1 amended: `Storage.get` and `Storage.delete` splice the WHERE text into
the statement and execute it with an empty bound-parameter sequence — no
positional parameter binding happens at the execution site. -/
theorem exec_binds_no_parameters (table WHERE : String) (all : Bool)
    (res : String × List Value)
    (h : Storage.deleteExec table WHERE all = .ok res) :
    (Storage.getExec table WHERE).2 = [] ∧ res.2 = [] := by
  refine ⟨rfl, ?_⟩
  unfold Storage.deleteExec at h
  split at h
  · injection h with h
    subst h
    rfl
  · split at h
    · cases h
    · injection h with h
      subst h
      rfl

/-- Witness for the amended C1 at an unconditional delete. -/
theorem exec_binds_no_parameters_witness :
    (Storage.getExec "items" "").2 = []
    ∧ ("DELETE FROM items;", ([] : List Value)).2 = [] :=
  exec_binds_no_parameters "items" "" true ("DELETE FROM items;", []) rfl

end dblite
